import Mathlib

/-!
# Verification of the Nasdaq rule-filings monitor (`nasdaq_scraper.py`)

A shallow embedding of the monitor's core: the table-row parser, the
sliding-window rate limiter, the page cache / fetch pipeline
(`scrape_nasdaq`), the Discord notifier (`send_to_discord`), and the main
monitoring loop with its consecutive-failure escalation policy.

Time values (`time.time()` floats) are modelled as rationals.  External
effects are modelled as explicit parameters: the outcome of the single
HTTP GET of one `scrape_nasdaq` call is a `NetResult`, the MD5 content
hash `get_page_hash` and the BeautifulSoup document structure are
deterministic oracle functions, and the Discord POST is an oracle from
the payload string to a `PostResult`.  Mutations of the module-level
globals (`request_timestamps`, `page_cache`, `session`,
`consecutive_errors`, `seen_entries`) become explicit state passing.
-/

namespace NasdaqScraper

/-- One rule-filing entry: the dict built by `parse_table_row`.  Field
`ruleFiling` is the `'Rule Filing'` key (the record id), and so on for
the six columns. -/
structure Entry where
  ruleFiling : String
  description : String
  status : String
  secNotice : String
  commentPeriod : String
  noticeDate : String
deriving DecidableEq, Repr

/-- One `<td>` cell of a table row, as seen by `parse_table_row`:
`text` is `cell.text` (the raw text, not yet stripped) and `anchor` is
`some t` when `cell.find('a')` finds an anchor whose `.text` is `t`,
and `none` when the cell holds no anchor element. -/
structure Cell where
  text : String
  anchor : Option String
deriving DecidableEq, Repr

/-- One `<tr>` table row: the list of its `<td>` cells
(`row.find_all('td')`). -/
structure Row where
  cells : List Cell
deriving DecidableEq, Repr

/-- The `<table width="100%">` element: `rows` is `table.find_all('tr')`,
header row included. -/
structure Table where
  rows : List Row
deriving DecidableEq, Repr

/-- The `<div id="NASDAQ-tab-2025" class="tab-content">` element; `table`
is the result of `tab_content.find('table', width='100%')`. -/
structure TabContent where
  table : Option Table
deriving DecidableEq, Repr

/-- A parsed HTML document: `tabContent` is the result of
`soup.find('div', id='NASDAQ-tab-2025', class='tab-content')`. -/
structure Doc where
  tabContent : Option TabContent
deriving DecidableEq, Repr

/-- Python's `str.strip()`: remove leading and trailing whitespace.
(Defined directly on the character list so that concrete instances
evaluate by kernel reduction.) -/
def pyStrip (s : String) : String :=
  ⟨((s.data.dropWhile Char.isWhitespace).reverse.dropWhile
      Char.isWhitespace).reverse⟩

/-- `parse_table_row(row)`: requires at least six cells, takes the record
id from the stripped text of an anchor inside the first cell (empty
string when no anchor is present), rejects the row when that id is
empty, and otherwise builds the six-field entry.  `None` becomes
`none`. -/
def parse_table_row (row : Row) : Option Entry :=
  match row.cells with
  | c0 :: c1 :: c2 :: c3 :: c4 :: c5 :: _ =>
    let rule_filing_id :=
      match c0.anchor with
      | some a => pyStrip a
      | none => ""
    if rule_filing_id = "" then
      none
    else
      some { ruleFiling := rule_filing_id
             description := pyStrip c1.text
             status := pyStrip c2.text
             secNotice := pyStrip c3.text
             commentPeriod := pyStrip c4.text
             noticeDate := pyStrip c5.text }
  | _ => none

/-- `is_rate_limited()`: prunes `request_timestamps` to those within
`RATE_LIMIT_WINDOW` of `now`, returns `true` (rate limited) leaving the
pruned list when the pruned count already meets
`MAX_REQUESTS_PER_WINDOW`, otherwise appends `now` and returns `false`.
The mutated global `request_timestamps` is returned as the second
component. -/
def is_rate_limited (window : ℚ) (limit : ℕ) (timestamps : List ℚ) (now : ℚ) :
    Bool × List ℚ :=
  let pruned := timestamps.filter fun ts => decide (now - ts < window)
  if limit ≤ pruned.length then
    (true, pruned)
  else
    (false, pruned ++ [now])

/-- The spec's `RateLimiter.tryAcquire(now)` view of `is_rate_limited`:
callers of `is_rate_limited` treat a `false` answer as permission to
fetch, so `tryAcquire` is the negation of the first component. -/
def tryAcquire (window : ℚ) (limit : ℕ) (timestamps : List ℚ) (now : ℚ) :
    Bool × List ℚ :=
  let r := is_rate_limited window limit timestamps now
  (!r.1, r.2)

/-- A sequence of `tryAcquire` calls at the given times, threading the
timestamp state; returns the list of results in call order. -/
def tryAcquireSeq (window : ℚ) (limit : ℕ) (timestamps : List ℚ) :
    List ℚ → List Bool
  | [] => []
  | t :: rest =>
    let r := tryAcquire window limit timestamps t
    r.1 :: tryAcquireSeq window limit r.2 rest

/-- The module-level `page_cache` dict: `content` is the last parsed
entry list (`None` before the first successful fetch), `timestamp` the
capture time, `hash` the MD5 fingerprint of the last fetched body. -/
structure PageCache where
  content : Option (List Entry)
  timestamp : ℚ
  hash : Option String
deriving DecidableEq, Repr

/-- The mutable state read and written by one `scrape_nasdaq` call: the
page cache and the rate limiter's `request_timestamps`. -/
structure ScrapeState where
  cache : PageCache
  timestamps : List ℚ
deriving DecidableEq, Repr

/-- The outcome of the single `session.get` + `raise_for_status` of one
`scrape_nasdaq` call: `error` when the GET (after its transport-level
retries) or `raise_for_status` raised, `ok body` when a successful
response with text `body` came back. -/
inductive NetResult where
  | error
  | ok (body : String)
deriving DecidableEq, Repr

/-- The configuration globals that `scrape_nasdaq` and `is_rate_limited`
read (env vars with defaults `0.5`, `60`, `120`). -/
structure Config where
  cache_duration : ℚ
  rate_limit_window : ℚ
  max_requests_per_window : ℕ
deriving DecidableEq, Repr

/-- The default configuration values from the source. -/
def default_config : Config :=
  { cache_duration := 1 / 2, rate_limit_window := 60,
    max_requests_per_window := 120 }

/-- What one `scrape_nasdaq` call produces: its return value (`none`
models Python `None`, which the unchanged-content branch can in
principle return), the mutated globals, and whether `session.get` was
invoked. -/
structure ScrapeResult where
  entries : Option (List Entry)
  state : ScrapeState
  networkCalled : Bool
deriving DecidableEq, Repr

/-- `scrape_nasdaq()`.  `ph` is `get_page_hash` (MD5 hex digest,
deterministic, modelled as an oracle), `doc` the structure BeautifulSoup
extracts from a body, `net` the outcome of this call's HTTP GET, `now`
the value of `time.time()`.  In order: the cache-freshness short
circuit, the rate-limit check (which records `now` on permission), the
GET (any exception returns `[]`), the unchanged-fingerprint short
circuit, the container/table lookups (missing ones return `[]`), the
row-parsing loop, and the cache update. -/
def scrape_nasdaq (cfg : Config) (ph : String → String) (doc : String → Doc)
    (net : NetResult) (now : ℚ) (s : ScrapeState) : ScrapeResult :=
  if s.cache.content.isSome ∧ now - s.cache.timestamp < cfg.cache_duration then
    { entries := s.cache.content, state := s, networkCalled := false }
  else
    let rl := is_rate_limited cfg.rate_limit_window cfg.max_requests_per_window
      s.timestamps now
    let s1 : ScrapeState := { s with timestamps := rl.2 }
    if rl.1 then
      { entries := some (s1.cache.content.getD []), state := s1,
        networkCalled := false }
    else
      match net with
      | NetResult.error =>
        { entries := some [], state := s1, networkCalled := true }
      | NetResult.ok body =>
        let content_hash := ph body
        if s1.cache.hash = some content_hash then
          { entries := s1.cache.content, state := s1, networkCalled := true }
        else
          match (doc body).tabContent with
          | none => { entries := some [], state := s1, networkCalled := true }
          | some tc =>
            match tc.table with
            | none => { entries := some [], state := s1, networkCalled := true }
            | some table =>
              let entries := (table.rows.drop 1).filterMap parse_table_row
              { entries := some entries,
                state := { s1 with cache :=
                  { content := some entries, timestamp := now,
                    hash := some content_hash } },
                networkCalled := true }

/-- The outcome of `session.post` to the Discord webhook:
`transportError` when the POST raised before producing a response,
`response status` when a response with the given HTTP status came back.
`requests.Response.raise_for_status` raises exactly when
`400 ≤ status < 600`. -/
inductive PostResult where
  | transportError
  | response (status : ℕ)
deriving DecidableEq, Repr

/-- The message string `send_to_discord` builds: the three mandatory
fields, each optional field only when (Python-)truthy, and the current
UTC timestamp. -/
def discord_message (rule_filing description status sec_notice
    comment_period notice_date current_time : String) : String :=
  "**Rule Filing:** " ++ rule_filing ++ "\n" ++
  "**Description:** " ++ description ++ "\n" ++
  "**Status:** " ++ status ++ "\n" ++
  (if sec_notice = "" then "" else "**SEC Notice:** " ++ sec_notice ++ "\n") ++
  (if comment_period = "" then "" else
    "**Comment Period:** " ++ comment_period ++ "\n") ++
  (if notice_date = "" then "" else
    "**Notice Date:** " ++ notice_date ++ "\n") ++
  "**Timestamp:** " ++ current_time ++ "\n"

/-- `send_to_discord(...)`.  `webhook_url` is `DISCORD_WEBHOOK_URL`
(Python-falsy when unset or the empty string), `post` the outcome of
`session.post` as a function of the payload's `content` string,
`current_time` the ISO timestamp `datetime.now(timezone.utc)` produces.
Returns `false` when the webhook is unset; otherwise posts the message
and returns `false` when the POST raises (transport error or
`raise_for_status` on a 4xx/5xx status), else `true`. -/
def send_to_discord (webhook_url : Option String) (post : String → PostResult)
    (current_time rule_filing description status sec_notice comment_period
    notice_date : String) : Bool :=
  if webhook_url.getD "" = "" then
    false
  else
    match post (discord_message rule_filing description status sec_notice
        comment_period notice_date current_time) with
    | PostResult.transportError => false
    | PostResult.response st => if 400 ≤ st ∧ st < 600 then false else true

/-- An observable external call made while handling one record in the
main loop: a call to the notifier with its result, or a
`save_seen_entries` write of the given snapshot. -/
inductive Action where
  | notifyCall (e : Entry) (result : Bool)
  | persistCall (snapshot : List String)
deriving DecidableEq, Repr

/-- The per-record body of `main`'s `for entry in current_entries`
loop: for each entry in order, skip it when its `'Rule Filing'` id is
already in `seen_entries`; otherwise call the notifier
(`send_to_discord`), and on success append the id to `seen_entries` and
immediately `save_seen_entries`.  Returns the final `seen_entries` list
and, per record in order, the list of external calls made for it. -/
def process_entries (notify : Entry → Bool) :
    List Entry → List String → List String × List (List Action)
  | [], seen => (seen, [])
  | e :: rest, seen =>
    if e.ruleFiling ∈ seen then
      ((process_entries notify rest seen).1,
        [] :: (process_entries notify rest seen).2)
    else
      if notify e then
        ((process_entries notify rest (seen ++ [e.ruleFiling])).1,
          [Action.notifyCall e true,
            Action.persistCall (seen ++ [e.ruleFiling])] ::
            (process_entries notify rest (seen ++ [e.ruleFiling])).2)
      else
        ((process_entries notify rest seen).1,
          [Action.notifyCall e false] ::
            (process_entries notify rest seen).2)

/-- `max_consecutive_errors = 5`, the fixed escalation threshold in
`main`. -/
def max_consecutive_errors : ℕ := 5

/-- The state `main`'s `while True` loop carries across iterations:
the `consecutive_errors` counter, the identity of the global `session`
(as a generation number, bumped each time `create_session()` replaces
it) together with a count of `session.close()` calls, the in-memory
`seen_entries` list, and the globals `scrape_nasdaq` mutates. -/
structure LoopState where
  consecutive_errors : ℕ
  session_generation : ℕ
  session_closes : ℕ
  seen : List String
  scrape_state : ScrapeState

/-- The environment of one loop iteration: the clock value, this
iteration's GET outcome, the hashing and document oracles, the
notifier's behaviour (`send_to_discord` with this iteration's POST
outcomes), and whether an exception escapes the `try` body this
iteration (modelled as raised at the start of the body; the claims
below depend only on the counter/session effects, which do not depend
on the raise point). -/
structure Env where
  now : ℚ
  net : NetResult
  ph : String → String
  doc : String → Doc
  notify : Entry → Bool
  raises : Bool

/-- The `except` block of `main`'s loop: increment
`consecutive_errors`; once it reaches `max_consecutive_errors`, close
the session, recreate it and reset the counter to zero. -/
def loop_fail (st : LoopState) : LoopState :=
  let c := st.consecutive_errors + 1
  if max_consecutive_errors ≤ c then
    { st with consecutive_errors := 0,
              session_closes := st.session_closes + 1,
              session_generation := st.session_generation + 1 }
  else
    { st with consecutive_errors := c }

/-- One iteration of `main`'s `while True` loop: run `scrape_nasdaq`,
iterate over the returned entries (a `None` return would make the `for`
raise, landing in the `except` block), and on completing the body reset
`consecutive_errors` to zero; an exception goes to the `except` block
(`loop_fail`). -/
def loop_step (cfg : Config) (env : Env) (st : LoopState) : LoopState :=
  if env.raises then
    loop_fail st
  else
    let r := scrape_nasdaq cfg env.ph env.doc env.net env.now st.scrape_state
    match r.entries with
    | none => loop_fail { st with scrape_state := r.state }
    | some es =>
      let p := process_entries env.notify es st.seen
      { st with scrape_state := r.state, seen := p.1,
                consecutive_errors := 0 }

/-- The state at entry to `main`'s loop: counter zero, the startup
session, the loaded `seen_entries`, an empty cache
(`content=None, timestamp=0, hash=None`) and no recorded request
timestamps. -/
def initial_state (seen0 : List String) : LoopState :=
  { consecutive_errors := 0, session_generation := 0, session_closes := 0,
    seen := seen0,
    scrape_state :=
      { cache := { content := none, timestamp := 0, hash := none },
        timestamps := [] } }

/-- The loop state at the beginning of iteration `n`, given the
per-iteration environments. -/
def run_loop (cfg : Config) (envs : ℕ → Env) (st0 : LoopState) : ℕ → LoopState
  | 0 => st0
  | n + 1 => loop_step cfg (envs n) (run_loop cfg envs st0 n)

/-! ## Concrete fixtures used by counterexamples and witnesses -/

/-- A six-cell data row whose first cell holds an anchor with a
non-empty id but whose second (description) cell is empty. -/
def empty_description_row : Row :=
  { cells :=
      [ { text := "SR-NASDAQ-2025-001", anchor := some "SR-NASDAQ-2025-001" },
        { text := "", anchor := none },
        { text := "Approved", anchor := none },
        { text := "", anchor := none },
        { text := "", anchor := none },
        { text := "", anchor := none } ] }

/-- The entry `parse_table_row` builds from `empty_description_row`. -/
def empty_description_entry : Entry :=
  { ruleFiling := "SR-NASDAQ-2025-001", description := "", status := "Approved",
    secNotice := "", commentPeriod := "", noticeDate := "" }

/-- A well-formed six-cell data row. -/
def good_row : Row :=
  { cells :=
      [ { text := "SR-NASDAQ-2025-002", anchor := some "SR-NASDAQ-2025-002" },
        { text := "Amend Rule 5702", anchor := none },
        { text := "Pending", anchor := none },
        { text := "", anchor := none },
        { text := "", anchor := none },
        { text := "", anchor := none } ] }

/-- The entry `parse_table_row` builds from `good_row`. -/
def good_entry : Entry :=
  { ruleFiling := "SR-NASDAQ-2025-002", description := "Amend Rule 5702",
    status := "Pending", secNotice := "", commentPeriod := "",
    noticeDate := "" }

/-- A six-cell data row whose first cell carries non-empty plain text
but contains no anchor element. -/
def anchorless_row : Row :=
  { cells :=
      [ { text := "SR-NASDAQ-2025-003", anchor := none },
        { text := "Amend Rule 4120", anchor := none },
        { text := "Pending", anchor := none },
        { text := "", anchor := none },
        { text := "", anchor := none },
        { text := "", anchor := none } ] }

/-! ## C2 — parser rejection of empty fields -/

/-- C2, counterexample: the claim says no record with an empty
description ever appears in the parser's output, but
`parse_table_row` accepts a row whose description cell is empty: the
parsing loop of `scrape_nasdaq` run on a table holding such a row
outputs a record with `description = ""`. -/
theorem parse_keeps_empty_description_cex :
    parse_table_row empty_description_row = some empty_description_entry ∧
    List.filterMap parse_table_row [empty_description_row] =
      [empty_description_entry] ∧
    empty_description_entry.description = "" := by
  refine ⟨by decide, by decide, rfl⟩

/-- C2, amended: `parse_table_row` discards a candidate record exactly
for an empty id; it never checks the description, so no record with an
empty id appears in the output, but records with an empty description
are kept.  This theorem proves the part that holds: every record the
parser outputs has a non-empty id. -/
theorem parse_output_id_nonempty (row : Row) (e : Entry)
    (h : parse_table_row row = some e) : e.ruleFiling ≠ "" := by
  obtain ⟨cells⟩ := row
  rcases cells with _ | ⟨c0, _ | ⟨c1, _ | ⟨c2, _ | ⟨c3, _ | ⟨c4, _ | ⟨c5, r⟩⟩⟩⟩⟩⟩ <;>
    simp [parse_table_row] at h
  obtain ⟨hne, he⟩ := h
  subst he
  exact hne

/-- C2, witness for the amended theorem at a concrete row. -/
theorem parse_output_id_nonempty_witness :
    parse_table_row good_row = some good_entry ∧
    good_entry.ruleFiling ≠ "" :=
  ⟨by decide, parse_output_id_nonempty good_row good_entry (by decide)⟩

/-! ## C9 — rows without an anchor in the first cell -/

/-- C9: a table row whose first cell contains no anchor element is
discarded by `parse_table_row` regardless of the cell's own text: the
record id comes only from an anchor's text, and without one the id is
the empty string, which is rejected. -/
theorem no_anchor_row_discarded (row : Row) (c0 : Cell) (rest : List Cell)
    (hcells : row.cells = c0 :: rest) (hanchor : c0.anchor = none) :
    parse_table_row row = none := by
  unfold parse_table_row
  rw [hcells]
  rcases rest with _ | ⟨c1, _ | ⟨c2, _ | ⟨c3, _ | ⟨c4, _ | ⟨c5, rest⟩⟩⟩⟩⟩ <;>
    simp [hanchor]

/-- C9, witness: a concrete anchorless row with non-empty first-cell
text parses to `none`. -/
theorem no_anchor_row_discarded_witness :
    ({ text := "SR-NASDAQ-2025-003", anchor := none } : Cell).text ≠ "" ∧
    parse_table_row anchorless_row = none :=
  ⟨by decide,
    no_anchor_row_discarded anchorless_row
      { text := "SR-NASDAQ-2025-003", anchor := none }
      (anchorless_row.cells.drop 1) (by rfl) (by rfl)⟩

/-! ## C4 — rate limiter -/

/-- C4: `tryAcquire` (the caller view of `is_rate_limited`) first prunes
the recorded timestamps to those within the window of `now`; when the
pruned count already meets the limit it returns `false` without
recording `now`, and otherwise it appends `now` and returns `true`.
With `limit = 3` and `window = 60`, four calls within one second
starting from an empty state return exactly
`true, true, true, false`. -/
theorem rate_limiter_tryAcquire_spec :
    (∀ (window : ℚ) (limit : ℕ) (timestamps : List ℚ) (now : ℚ),
      (limit ≤ (timestamps.filter fun ts => decide (now - ts < window)).length →
        tryAcquire window limit timestamps now =
          (false, timestamps.filter fun ts => decide (now - ts < window))) ∧
      ((timestamps.filter fun ts => decide (now - ts < window)).length < limit →
        tryAcquire window limit timestamps now =
          (true, (timestamps.filter fun ts => decide (now - ts < window)) ++
            [now]))) ∧
    (∀ t1 t2 t3 t4 : ℚ, t1 ≤ t2 → t2 ≤ t3 → t3 ≤ t4 → t4 - t1 ≤ 1 →
      tryAcquireSeq 60 3 [] [t1, t2, t3, t4] = [true, true, true, false]) := by
  constructor
  · intro window limit timestamps now
    constructor
    · intro hge
      simp [tryAcquire, is_rate_limited, hge]
    · intro hlt
      simp [tryAcquire, is_rate_limited, Nat.not_le.mpr hlt, hlt]
  · intro t1 t2 t3 t4 h12 h23 h34 hspan
    have h21 : t2 - t1 < 60 := by linarith
    have h31 : t3 - t1 < 60 := by linarith
    have h32 : t3 - t2 < 60 := by linarith
    have h41 : t4 - t1 < 60 := by linarith
    have h42 : t4 - t2 < 60 := by linarith
    have h43 : t4 - t3 < 60 := by linarith
    simp [tryAcquireSeq, tryAcquire, is_rate_limited, List.filter,
      h21, h31, h32, h41, h42, h43]

/-- C4, witness: the general characterization applied with the limit
already met on the pruned list, and the concrete four-call scenario at
times 0, 0, 0, 1. -/
theorem rate_limiter_tryAcquire_spec_witness :
    tryAcquire 60 2 [5, 6] 7 = (false, [5, 6]) ∧
    tryAcquireSeq 60 3 [] [0, 0, 0, 1] = [true, true, true, false] :=
  ⟨by
      have h := (rate_limiter_tryAcquire_spec.1 60 2 [5, 6] 7).1
        (by norm_num [List.filter])
      have e1 : (7 : ℚ) - 5 < 60 := by norm_num
      have e2 : (7 : ℚ) - 6 < 60 := by norm_num
      simpa [List.filter, e1, e2] using h,
    rate_limiter_tryAcquire_spec.2 0 0 0 1 le_rfl le_rfl (by norm_num)
      (by norm_num)⟩

/-! ## C5 — cache-hit path, C6 — unchanged fingerprint -/

/-- C5: whenever the cache holds non-null content captured less than
the cache TTL ago, `scrape_nasdaq` takes the cache-hit path: it
performs no network request, touches no state, and returns the cached
entries. -/
theorem cache_fresh_no_network (cfg : Config) (ph : String → String)
    (doc : String → Doc) (net : NetResult) (now : ℚ) (s : ScrapeState)
    (c : List Entry) (hc : s.cache.content = some c)
    (hfresh : now - s.cache.timestamp < cfg.cache_duration) :
    scrape_nasdaq cfg ph doc net now s =
      { entries := some c, state := s, networkCalled := false } := by
  unfold scrape_nasdaq
  rw [if_pos ⟨by simp [hc], hfresh⟩, hc]

/-- A sample cached entry list used by the fetch-pipeline witnesses. -/
def cached_entries : List Entry := [good_entry]

/-- A scrape state holding `cached_entries` captured at time 100 with
fingerprint `"fp"`. -/
def cached_state : ScrapeState :=
  { cache := { content := some cached_entries, timestamp := 100,
               hash := some "fp" },
    timestamps := [] }

/-- C5, witness: with the default TTL of 0.5 seconds, a fetch at time
100.2 against `cached_state` is served from the cache. -/
theorem cache_fresh_no_network_witness :
    (100 + 1/5 : ℚ) - cached_state.cache.timestamp <
      default_config.cache_duration ∧
    scrape_nasdaq default_config (fun _ => "fp") (fun _ => { tabContent := none })
      (NetResult.ok "body") (100 + 1/5) cached_state =
      { entries := some cached_entries, state := cached_state,
        networkCalled := false } :=
  ⟨by norm_num [cached_state, default_config],
    cache_fresh_no_network default_config (fun _ => "fp")
      (fun _ => { tabContent := none }) (NetResult.ok "body") (100 + 1/5)
      cached_state cached_entries rfl
      (by norm_num [cached_state, default_config])⟩

/-- C6: when the fetch reaches the network (cache stale, rate limit
passed), succeeds, and the fingerprint of the response body equals the
stored fingerprint, `scrape_nasdaq` returns the cached entries and
leaves every cache field — content, fingerprint, and in particular the
capture timestamp — unchanged; only the rate limiter's timestamp list
advances. -/
theorem unchanged_fingerprint_preserves_cache (cfg : Config)
    (ph : String → String) (doc : String → Doc) (body : String) (now : ℚ)
    (s : ScrapeState)
    (hstale : ¬(s.cache.content.isSome ∧
      now - s.cache.timestamp < cfg.cache_duration))
    (hallow : (is_rate_limited cfg.rate_limit_window
      cfg.max_requests_per_window s.timestamps now).1 = false)
    (hhash : s.cache.hash = some (ph body)) :
    scrape_nasdaq cfg ph doc (NetResult.ok body) now s =
      { entries := s.cache.content,
        state := { cache := s.cache,
                   timestamps := (is_rate_limited cfg.rate_limit_window
                     cfg.max_requests_per_window s.timestamps now).2 },
        networkCalled := true } := by
  unfold scrape_nasdaq
  rw [if_neg hstale]
  simp only [hallow, Bool.false_eq_true, if_false, hhash, if_pos]

/-- C6, witness: a stale cache (fetch at time 200), an empty rate
limiter, and a body hashing to the stored fingerprint `"fp"`. -/
theorem unchanged_fingerprint_preserves_cache_witness :
    scrape_nasdaq default_config (fun _ => "fp")
      (fun _ => { tabContent := none }) (NetResult.ok "body") 200
      cached_state =
      { entries := some cached_entries,
        state := { cache := cached_state.cache,
                   timestamps := (is_rate_limited
                     default_config.rate_limit_window
                     default_config.max_requests_per_window
                     cached_state.timestamps 200).2 },
        networkCalled := true } :=
  unchanged_fingerprint_preserves_cache default_config (fun _ => "fp")
    (fun _ => { tabContent := none }) "body" 200 cached_state
    (by norm_num [cached_state, default_config])
    (by norm_num [is_rate_limited, cached_state, default_config, List.filter])
    rfl

/-! ## C8 — notifier result -/

/-- C8, counterexample: the claim says `send_to_discord` returns `true`
only for a 2xx response, but `raise_for_status` raises only for
statuses in 400–599, so a final 304 response (not auto-followed by
`requests`) makes `send_to_discord` return `true` although 304 is not
a 2xx status. -/
theorem send_to_discord_not_2xx_true_cex :
    send_to_discord (some "https://discord.example/webhook")
      (fun _ => PostResult.response 304) "2025-01-01T00:00:00+00:00"
      "SR-NASDAQ-2025-002" "Amend Rule 5702" "Pending" "" "" "" = true ∧
    ¬(200 ≤ 304 ∧ 304 < 300) := by
  exact ⟨by decide, by decide⟩

/-- C8, amended: `send_to_discord` returns `true` exactly when the
webhook URL is configured (set and non-empty), the POST of the built
message raises no transport error, and the response status is outside
400–599 (the range `raise_for_status` raises for); in particular every
transport error, every 4xx/5xx status, and a missing webhook
configuration yield `false`, but a non-2xx status below 400 (such as
304) yields `true`. -/
theorem send_to_discord_true_iff (webhook_url : Option String)
    (post : String → PostResult) (current_time rule_filing description
    status sec_notice comment_period notice_date : String) :
    send_to_discord webhook_url post current_time rule_filing description
      status sec_notice comment_period notice_date = true ↔
    (webhook_url.getD "" ≠ "" ∧
      ∃ st : ℕ, post (discord_message rule_filing description status
        sec_notice comment_period notice_date current_time) =
          PostResult.response st ∧ ¬(400 ≤ st ∧ st < 600)) := by
  unfold send_to_discord
  by_cases hempty : webhook_url.getD "" = ""
  · simp [hempty]
  · rw [if_neg hempty]
    cases hp : post (discord_message rule_filing description status
        sec_notice comment_period notice_date current_time) with
    | transportError => simp [hempty]
    | response st =>
      by_cases herr : 400 ≤ st ∧ st < 600
      · simp [herr, hempty]
      · constructor
        · intro _
          exact ⟨hempty, st, rfl, herr⟩
        · intro _
          simp [herr]

/-! ## C3 — transport failures and the failure counter -/

/-- A transport-failing `scrape_nasdaq` call never returns `None`:
every branch reachable with `net = error` returns a list (the cache-hit
branch only fires on non-null content, and the `except` branch of
`scrape_nasdaq` returns `[]`). -/
theorem scrape_error_entries_isSome (cfg : Config) (ph : String → String)
    (doc : String → Doc) (now : ℚ) (s : ScrapeState) :
    (scrape_nasdaq cfg ph doc NetResult.error now s).entries.isSome = true := by
  unfold scrape_nasdaq
  split
  · rename_i hfresh
    exact hfresh.1
  · split
    · dsimp only
      split
      · rfl
      · rfl
    · rename_i heq
      exact absurd heq (by simp)

/-- C3, amended: a transport failure of the fetch (timeout, connection
error, exhausted retries, non-transient HTTP error) is caught inside
`scrape_nasdaq`, which logs it and returns the empty list; the loop
iteration then completes normally, so the consecutive-failure counter
is reset to zero for that iteration — it is not incremented.  Only an
exception escaping the loop body itself increments the counter. -/
theorem transport_error_resets_counter (cfg : Config) (env : Env)
    (st : LoopState) (hraise : env.raises = false)
    (hnet : env.net = NetResult.error) :
    (loop_step cfg env st).consecutive_errors = 0 := by
  have hsome := scrape_error_entries_isSome cfg env.ph env.doc env.now
    st.scrape_state
  rw [← hnet] at hsome
  unfold loop_step
  rw [hraise]
  simp only [Bool.false_eq_true, if_false]
  split
  · rename_i heq
    rw [heq] at hsome
    exact absurd hsome (by simp)
  · rfl

/-- The environment of an iteration whose GET fails with a transport
error and whose body raises no other exception. -/
def transport_error_env : Env :=
  { now := 0, net := NetResult.error, ph := fun _ => "",
    doc := fun _ => { tabContent := none }, notify := fun _ => true,
    raises := false }

/-- A loop state whose consecutive-failure counter stands at 3, with an
empty cache and rate limiter. -/
def loop_state_three : LoopState :=
  { consecutive_errors := 3, session_generation := 0, session_closes := 0,
    seen := [],
    scrape_state :=
      { cache := { content := none, timestamp := 0, hash := none },
        timestamps := [] } }

/-- C3, counterexample: an iteration whose fetch reaches the network
and fails with a transport error leaves the counter at 0, not at the
claimed incremented value 4 (= 3 + 1). -/
theorem transport_error_not_incrementing_cex :
    (scrape_nasdaq default_config transport_error_env.ph
      transport_error_env.doc NetResult.error transport_error_env.now
      loop_state_three.scrape_state).networkCalled = true ∧
    (loop_step default_config transport_error_env
      loop_state_three).consecutive_errors = 0 ∧
    (loop_step default_config transport_error_env
      loop_state_three).consecutive_errors ≠
      loop_state_three.consecutive_errors + 1 := by
  have hscrape : scrape_nasdaq default_config (fun _ => "")
      (fun _ => ({ tabContent := none } : Doc)) NetResult.error 0
      { cache := { content := none, timestamp := 0, hash := none },
        timestamps := [] } =
      { entries := some [],
        state := { cache := { content := none, timestamp := 0, hash := none },
                   timestamps := [0] },
        networkCalled := true } := by
    unfold scrape_nasdaq
    norm_num [default_config, is_rate_limited, List.filter]
  refine ⟨?_, ?_, ?_⟩ <;>
    simp [loop_step, loop_state_three, transport_error_env, hscrape,
      process_entries]

/-- C3, witness for the amended theorem: the concrete transport-error
iteration from the counterexample resets the counter to zero. -/
theorem transport_error_resets_counter_witness :
    (loop_step default_config transport_error_env
      loop_state_three).consecutive_errors = 0 :=
  transport_error_resets_counter default_config transport_error_env
    loop_state_three rfl rfl

/-! ## C7 — session recreation at the failure threshold -/

/-- C7: in the failure-handling step of a loop iteration, when the
consecutive-failure counter reaches the fixed threshold of 5 the
session is closed and recreated and the counter is reset to zero;
below the threshold the session is untouched and only the counter
advances. -/
theorem failure_threshold_session_recreation (cfg : Config) (env : Env)
    (st : LoopState) (hraise : env.raises = true) :
    (st.consecutive_errors + 1 = max_consecutive_errors →
      loop_step cfg env st =
        { st with consecutive_errors := 0,
                  session_closes := st.session_closes + 1,
                  session_generation := st.session_generation + 1 }) ∧
    (st.consecutive_errors + 1 < max_consecutive_errors →
      loop_step cfg env st =
        { st with consecutive_errors := st.consecutive_errors + 1 }) := by
  unfold loop_step loop_fail
  rw [hraise]
  simp only [if_true]
  constructor
  · intro h
    rw [if_pos (le_of_eq h.symm)]
  · intro h
    rw [if_neg (Nat.not_le.mpr h)]

/-- A loop state whose consecutive-failure counter stands at 4 (so the
next failure is the 5th). -/
def loop_state_four : LoopState :=
  { loop_state_three with consecutive_errors := 4 }

/-- An iteration environment whose body raises an unhandled
exception. -/
def raising_env : Env :=
  { transport_error_env with raises := true }

/-- C7, witness: on the 5th consecutive failure the session generation
advances, a close is recorded, and the counter resets; a failure at
counter 2 leaves the session alone. -/
theorem failure_threshold_session_recreation_witness :
    (loop_state_four.consecutive_errors + 1 = max_consecutive_errors →
      loop_step default_config raising_env loop_state_four =
        { loop_state_four with
            consecutive_errors := 0,
            session_closes := loop_state_four.session_closes + 1,
            session_generation := loop_state_four.session_generation + 1 }) ∧
    (loop_state_three.consecutive_errors + 1 < max_consecutive_errors →
      loop_step default_config raising_env loop_state_three =
        { loop_state_three with
            consecutive_errors := loop_state_three.consecutive_errors + 1 }) :=
  ⟨(failure_threshold_session_recreation default_config raising_env
      loop_state_four rfl).1,
    (failure_threshold_session_recreation default_config raising_env
      loop_state_three rfl).2⟩

/-! ## C10 — the counter is bounded -/

/-- One step preserves the bound `consecutive_errors ≤ 4`: a successful
iteration resets the counter, and a failing one increments it but
resets to zero as soon as the incremented value reaches the threshold
5. -/
theorem loop_step_counter_le (cfg : Config) (env : Env) (st : LoopState)
    (h : st.consecutive_errors ≤ 4) :
    (loop_step cfg env st).consecutive_errors ≤ 4 := by
  have hfail : ∀ st' : LoopState, st'.consecutive_errors ≤ 4 →
      (loop_fail st').consecutive_errors ≤ 4 := by
    intro st' h'
    unfold loop_fail
    dsimp only
    split
    · exact Nat.zero_le 4
    · rename_i hc
      unfold max_consecutive_errors at hc
      show st'.consecutive_errors + 1 ≤ 4
      omega
  unfold loop_step
  split
  · exact hfail st h
  · dsimp only
    split
    · exact hfail _ h
    · exact Nat.zero_le 4

/-- C10: starting from the initial state (counter zero), at the
beginning of every iteration of the monitor loop the
consecutive-failure counter lies between 0 and 4 inclusive, whatever
the per-iteration environments are. -/
theorem consecutive_errors_bounded (cfg : Config) (envs : ℕ → Env)
    (seen0 : List String) (n : ℕ) :
    0 ≤ (run_loop cfg envs (initial_state seen0) n).consecutive_errors ∧
    (run_loop cfg envs (initial_state seen0) n).consecutive_errors ≤ 4 := by
  refine ⟨Nat.zero_le _, ?_⟩
  induction n with
  | zero => exact Nat.zero_le 4
  | succ n ih =>
    rw [run_loop]
    exact loop_step_counter_le cfg (envs n) _ ih

/-! ## C1 — per-record dedup / notify / persist in the monitor loop -/

/-- C1: in one iteration of the monitor loop, for the record at each
position `i` of the parsed sequence, with `seenBefore` the seen-entries
list after the records before it: if its id is already in `seenBefore`
the notifier is not called for it (its action list is empty) and the
seen list is unchanged; otherwise the notifier is called for it, and
exactly on a successful result the id is appended to the seen list and
the new list is persisted immediately. -/
theorem main_loop_record_handling (notify : Entry → Bool) :
    ∀ (entries : List Entry) (seen : List String) (i : ℕ)
      (h : i < entries.length),
      ((entries.get ⟨i, h⟩).ruleFiling ∈
          (process_entries notify (entries.take i) seen).1 →
        (process_entries notify entries seen).2.getD i [] = [] ∧
        (process_entries notify (entries.take (i + 1)) seen).1 =
          (process_entries notify (entries.take i) seen).1) ∧
      ((entries.get ⟨i, h⟩).ruleFiling ∉
          (process_entries notify (entries.take i) seen).1 →
        notify (entries.get ⟨i, h⟩) = true →
        (process_entries notify entries seen).2.getD i [] =
          [Action.notifyCall (entries.get ⟨i, h⟩) true,
            Action.persistCall ((process_entries notify (entries.take i) seen).1
              ++ [(entries.get ⟨i, h⟩).ruleFiling])] ∧
        (process_entries notify (entries.take (i + 1)) seen).1 =
          (process_entries notify (entries.take i) seen).1 ++
            [(entries.get ⟨i, h⟩).ruleFiling]) ∧
      ((entries.get ⟨i, h⟩).ruleFiling ∉
          (process_entries notify (entries.take i) seen).1 →
        notify (entries.get ⟨i, h⟩) = false →
        (process_entries notify entries seen).2.getD i [] =
          [Action.notifyCall (entries.get ⟨i, h⟩) false] ∧
        (process_entries notify (entries.take (i + 1)) seen).1 =
          (process_entries notify (entries.take i) seen).1) := by
  intro entries
  induction entries with
  | nil =>
    intro seen i h
    exact absurd h (by simp)
  | cons e0 rest ih =>
    intro seen i h
    cases i with
    | zero =>
      by_cases hm : e0.ruleFiling ∈ seen
      · simp [process_entries, hm]
      · cases hn : notify e0 with
        | true => simp [process_entries, hm, hn]
        | false => simp [process_entries, hm, hn]
    | succ j =>
      have hj : j < rest.length := by simpa using h
      by_cases hm : e0.ruleFiling ∈ seen
      · simpa [process_entries, hm, List.take_succ_cons] using ih seen j hj
      · cases hn : notify e0 with
        | true =>
          simpa [process_entries, hm, hn, List.take_succ_cons] using
            ih (seen ++ [e0.ruleFiling]) j hj
        | false =>
          simpa [process_entries, hm, hn, List.take_succ_cons] using
            ih seen j hj

/-- An entry the demo notifier rejects. -/
def rejected_entry : Entry :=
  { ruleFiling := "SR-NASDAQ-2025-003", description := "Amend Rule 4120",
    status := "Pending", secNotice := "", commentPeriod := "",
    noticeDate := "" }

/-- A notifier that succeeds for every record except
`rejected_entry`. -/
def demo_notifier (e : Entry) : Bool :=
  decide (e.ruleFiling ≠ "SR-NASDAQ-2025-003")

/-- C1, witness: in a run over three records where the first id is
already seen, the second record (position 1) is not yet seen and its
notification succeeds: the notifier is called for it, its id is
appended to the seen list, and the appended list is persisted at
once. -/
theorem main_loop_record_handling_witness :
    (process_entries demo_notifier [good_entry, empty_description_entry,
        rejected_entry] ["SR-NASDAQ-2025-002"]).2.getD 1 [] =
      [Action.notifyCall empty_description_entry true,
        Action.persistCall ["SR-NASDAQ-2025-002", "SR-NASDAQ-2025-001"]] ∧
    (process_entries demo_notifier (List.take 2 [good_entry,
        empty_description_entry, rejected_entry])
        ["SR-NASDAQ-2025-002"]).1 =
      ["SR-NASDAQ-2025-002", "SR-NASDAQ-2025-001"] := by
  have h := (main_loop_record_handling demo_notifier
      [good_entry, empty_description_entry, rejected_entry]
      ["SR-NASDAQ-2025-002"] 1 (by norm_num)).2.1 (by decide) (by decide)
  exact h

end NasdaqScraper
